import Mathlib

/-!
# Formal model of the garden.gauge widget (src/__init__.py)

A shallow embedding of the Python source of the `garden.gauge` Kivy widget.

Conventions of the embedding:
* Python exceptions are modelled by `Except PyError`; the spec-level error
  names map to the Python exceptions the code actually raises
  (`MalformedAssetName` is `ValueError`/`IndexError` out of `get_fileconfig`,
  `DegenerateRange` is the `ZeroDivisionError` raised by the float division
  on line 216).
* Python numbers (floats) are embedded as exact rationals `ℚ` where the code
  is pure arithmetic, and as reals `ℝ` where the code calls trigonometric
  library functions (`math.radians`, `math.atan2` via `kivy.vector.Vector.angle`).
* Strings are handled as their character lists (`String.data`), with the
  relevant pieces of `os.path` (`basename`, `splitext`) and `str.split`
  (with maxsplit) re-implemented faithfully below.
* Rendering state (images, sizes, scatter widgets, colors, fonts) is not part
  of any claim and is omitted; `get_png_size` is modelled as a function of the
  first bytes of the file.  Label text is modelled as the last value rendered
  into it (the `str.format` template application itself is not modelled).
* Reading a Python attribute that was never assigned raises `AttributeError`;
  an attribute slot of a `Gauge` under construction is therefore modelled as
  `Option (Option _)`: `none` = never assigned, `some none` = assigned `None`,
  `some (some x)` = assigned the object `x`.
-/

/-- Python exceptions that the modelled code can raise. -/
inductive PyError where
  /-- `IndexError` from `name.split("_", 3)[i]` (in `get_fileconfig`). -/
  | indexError : PyError
  /-- `ValueError` from `int(token)` on a non-numeric token (in `get_fileconfig`). -/
  | valueError : PyError
  /-- `ZeroDivisionError` from the float division computing `self.unit`
      (line 216); this is the failure the spec calls `DegenerateRange`. -/
  | zeroDivisionError : PyError
  /-- `AttributeError` from reading a never-assigned attribute (the string is
      the attribute name), or from `None.attr`. -/
  | attributeError : String → PyError
  /-- `struct.error` from `struct.unpack('>LL', ...)` on fewer than 8 bytes. -/
  | structError : PyError
deriving DecidableEq

/-! ## String machinery: `os.path.basename`, `os.path.splitext`, `str.split` -/

/-- Split a character list on a separator character, Python `str.split(sep)`
    semantics: `"".split(c) = [""]`, separators at the ends yield empty parts. -/
def splitOnChar (c : Char) (cs : List Char) : List (List Char) :=
  match cs with
  | [] => [[]]
  | x :: xs =>
    match splitOnChar c xs with
    | [] => [[]]
    | h :: t => if x = c then [] :: h :: t else (x :: h) :: t

/-- `os.path.basename` (POSIX): the part after the last `/`. -/
def basename (cs : List Char) : List Char :=
  (splitOnChar '/' cs).getLastD []

/-- Index of the last `.` in a character list, if any. -/
def lastDotIdx (cs : List Char) : Option Nat :=
  ((List.range cs.length).filter (fun i => cs.getD i ' ' = '.')).getLast?

/-- The root part of `os.path.splitext`: cut at the last `.`, except that a
    dot preceded only by dots (a leading-dots name such as `".png"`) starts
    no extension. -/
def splitextRoot (cs : List Char) : List Char :=
  match lastDotIdx cs with
  | none => cs
  | some i => if (cs.take i).all (fun c => c = '.') then cs else cs.take i

/-- Python `name.split("_", 3)`: at most three splits from the left; the
    remainder (with its underscores) is the final part. -/
def pySplit3 (cs : List Char) : List (List Char) :=
  let ps := splitOnChar '_' cs
  if ps.length ≤ 4 then ps
  else ps.take 3 ++ [List.intercalate ['_'] (ps.drop 3)]

/-! ## Python `int(str)` -/

/-- Parse a non-empty all-digit character list as a natural number. -/
def digitsToNat? (cs : List Char) : Option Nat :=
  if cs ≠ [] ∧ cs.all Char.isDigit then
    some (cs.foldl (fun a c => 10 * a + (c.toNat - 48)) 0)
  else none

/-- Python `int(s)` on a string: surrounding whitespace is stripped, then an
    optional sign followed by one or more digits; anything else raises
    `ValueError` (modelled as `none`). -/
def pyInt? (cs : List Char) : Option Int :=
  let t := ((cs.dropWhile Char.isWhitespace).reverse.dropWhile
      Char.isWhitespace).reverse
  match t with
  | '-' :: rest => (digitsToNat? rest).map (fun n => -(n : Int))
  | '+' :: rest => (digitsToNat? rest).map (fun n => (n : Int))
  | _ => (digitsToNat? t).map (fun n => (n : Int))

/-! ## The asset config decoder, `get_fileconfig` (lines 67–74) -/

/-- `get_fileconfig(filename)` (lines 67–74):

    name = os.path.splitext(os.path.basename(filename))[0]
    ax = int(name.split("_", 3)[1])
    ay = int(name.split("_", 3)[2])
    return (ax, ay)

Evaluation order is preserved: index `[1]`, `int` of token 1, index `[2]`,
`int` of token 2. -/
def get_fileconfig (filename : String) : Except PyError (Int × Int) :=
  let name := splitextRoot (basename filename.data)
  let parts := pySplit3 name
  match parts[1]? with
  | none => .error .indexError
  | some t1 =>
    match pyInt? t1 with
    | none => .error .valueError
    | some ax =>
      match parts[2]? with
      | none => .error .indexError
      | some t2 =>
        match pyInt? t2 with
        | none => .error .valueError
        | some ay => .ok (ax, ay)

/-- The tokens of the extension- and directory-stripped base name of a
    filename, fully split on `_` (the specification's view of the name). -/
def tokens (f : String) : List (List Char) :=
  splitOnChar '_' (splitextRoot (basename f.data))

/-! ## The image metadata reader, `get_png_size` (lines 77–90) -/

/-- The 8-byte PNG signature `'\211PNG\r\n\032\n'`. -/
def pngSig : List (Fin 256) := [137, 80, 78, 71, 13, 10, 26, 10]

/-- The 4-byte `'IHDR'` chunk tag. -/
def ihdrTag : List (Fin 256) := [73, 72, 68, 82]

/-- Big-endian interpretation of a byte list (`struct.unpack('>L', ...)` on a
    4-byte slice). -/
def be32 (bs : List (Fin 256)) : Nat :=
  bs.foldl (fun a b => 256 * a + b.val) 0

/-- `get_png_size` (lines 77–90) as a function of `data = f.read(24)`, the
    first (at most 24) bytes of the file:

    if (data[:8] == '\211PNG\r\n\032\n') and (data[12:16] == 'IHDR'):
        w, h = struct.unpack('>LL', data[16:24])
    else:
        width, height = (100, 100)

`struct.unpack('>LL', ...)` raises `struct.error` unless it gets exactly
8 bytes. -/
def get_png_size (data : List (Fin 256)) : Except PyError (Nat × Nat) :=
  if data.take 8 = pngSig ∧ (data.drop 12).take 4 = ihdrTag then
    if ((data.drop 16).take 8).length = 8 then
      .ok (be32 ((data.drop 16).take 4), be32 ((data.drop 20).take 4))
    else .error .structError
  else .ok (100, 100)

/-! ## The angle/value mapper (lines 216, 296–297, 314) -/

/-- `self.unit = float(self.angles[1] - self.angles[0]) / float(ranges[1] - ranges[0])`
    (line 216): the signed scale factor, degrees per value unit. -/
def unitOf (angles ranges : Int × Int) : ℚ :=
  ((angles.2 - angles.1 : Int) : ℚ) / ((ranges.2 - ranges.1 : Int) : ℚ)

/-- The rotation angle `_turn_1`/`_turn_2` send a value to (lines 296–297,
    306–307): `- self.angles[0] - (value - self.gauge_min) * self.unit`. -/
def angleForAux (start_angle gauge_min : Int) (unit : ℚ) (value : ℚ) : ℚ :=
  -(start_angle : ℚ) - (value - (gauge_min : ℚ)) * unit

/-- The value `_dragged_1`/`_dragged_2` derive from a dragged angle
    (lines 314, 320): `self._needle_1.dragged / self.unit`. -/
def valueFromDrag (unit : ℚ) (dragged : ℚ) : ℚ :=
  dragged / unit

/-! ## Gauge composite state (class `Gauge`, lines 162–348)

Only the claim-relevant state is retained: the parsed angle and value ranges,
the scale factor, the two bounded values, the two needle attribute slots and
the two label slots.  Rendering state is omitted. -/

/-- The claim-relevant state of a `Needle` (class `Needle`, lines 93–159) as
    seen by the `Gauge`: its own parsed anchor `a`, the position offsets
    `x = anchor[0] - a[0]`, `y = anchor[1] - a[1]`, the `_rotation` attribute,
    the drag flag and the `dragged` output property.  (The accumulated render
    transform of the needle is modelled separately, over `ℝ`, for the rotation
    claims.) -/
structure NeedleG where
  anchor : Int × Int
  x : Int
  y : Int
  rotation : ℚ
  do_drag : Bool
  dragged : ℚ
deriving DecidableEq

/-- A gauge label; its text is modelled as the last value rendered into it
    (`none` before the first `_turn_i` pass). -/
structure LabelG where
  text : Option ℚ
deriving DecidableEq

/-- Claim-relevant attributes of a constructed (or under-construction)
    `Gauge`.  The needle slots are `Option (Option NeedleG)`: the outer
    `Option` records whether the attribute was ever assigned (reading an
    unassigned attribute raises `AttributeError`), the inner one whether it
    holds `None` or a needle. -/
structure GaugeState where
  angles : Int × Int
  gauge_min : Int
  gauge_max : Int
  unit : ℚ
  value_1 : ℚ
  value_2 : ℚ
  glab_1 : Option LabelG
  glab_2 : Option LabelG
  needle_1 : Option (Option NeedleG)
  needle_2 : Option (Option NeedleG)
deriving DecidableEq

/-- `Needle.__init__` (lines 101–116): parses its own filename for the needle
    anchor `a` and positions itself relative to the gauge anchor point.
    (`get_png_size(filename)` sizes the widget; the size is pure rendering
    state and is not retained.) -/
def Needle.init (filename : String) (anchor : Int × Int) (do_drag : Bool) :
    Except PyError NeedleG :=
  match get_fileconfig filename with
  | .error e => .error e
  | .ok a =>
    .ok { anchor := a, x := anchor.1 - a.1, y := anchor.2 - a.2,
          rotation := 0, do_drag := do_drag, dragged := 0 }

/-- One needle-slot construction (lines 252–260, 264–272): the call site
    evaluates `anchor=get_fileconfig(file_fond)` and then runs
    `Needle.__init__` on the needle file. -/
def needleSlot (file_fond file_needle : String) (do_drag : Bool) :
    Except PyError NeedleG :=
  match get_fileconfig file_fond with
  | .error e => .error e
  | .ok anchor => Needle.init file_needle anchor do_drag

/-- `Gauge._turn_1` (lines 290–298):

    if self._needle_1 is not None:
        self._needle_1._set_rotation(- self.angles[0]
                                     - (self.value_1 - self.gauge_min) * self.unit)
        self._glab_1.text = self.label_1_format.format(self.value_1)

Reading `self._needle_1` when the attribute was never assigned raises
`AttributeError`; `self._glab_1.text = ...` with `_glab_1 = None` would raise
`AttributeError` on `None`. -/
def GaugeState.turn_1 (g : GaugeState) : Except PyError GaugeState :=
  match g.needle_1 with
  | none => .error (.attributeError "_needle_1")
  | some none => .ok g
  | some (some n) =>
    let n := { n with
      rotation := angleForAux g.angles.1 g.gauge_min g.unit g.value_1 }
    match g.glab_1 with
    | none => .error (.attributeError "text")
    | some lab =>
      .ok { g with needle_1 := some (some n),
                   glab_1 := some { lab with text := some g.value_1 } }

/-- `Gauge._turn_2` (lines 300–308), same shape as `_turn_1` for slot 2. -/
def GaugeState.turn_2 (g : GaugeState) : Except PyError GaugeState :=
  match g.needle_2 with
  | none => .error (.attributeError "_needle_2")
  | some none => .ok g
  | some (some n) =>
    let n := { n with
      rotation := angleForAux g.angles.1 g.gauge_min g.unit g.value_2 }
    match g.glab_2 with
    | none => .error (.attributeError "text")
    | some lab =>
      .ok { g with needle_2 := some (some n),
                   glab_2 := some { lab with text := some g.value_2 } }

/-- `Gauge.__init__` (lines 193–288), with the asset files already located
    (the directory search and globbing of lines 196–207 are file-system I/O;
    the located filenames are taken as parameters).  Steps, in source order:

    1. `self.angles = get_fileconfig(file_front)` (line 204);
    2. `ranges = get_fileconfig(file_dial)` (line 209);
    3. `gauge_min`/`gauge_max` from `ranges` (lines 210–211; the
       `BoundedNumericProperty` min/max updates of lines 212–215 do not
       change the stored values);
    4. `self.unit = float(...) / float(...)` (line 216) — raises
       `ZeroDivisionError` when the dial value range has zero span;
    5. label slots (lines 231–248; the `is not "None"` identity test on
       interned literals behaves as string inequality);
    6. needle slot 1 (lines 251–262) — NOTE: the `else` branch of the source
       assigns `self._needle_2 = None`, not `self._needle_1`, so a disabled
       first slot leaves `_needle_1` unassigned;
    7. needle slot 2 (lines 263–274) — always (re)assigns `self._needle_2`;
    8. the initial reaction passes `self._turn_1()`; `self._turn_2()`
       (lines 287–288). -/
def Gauge.init (file_fond file_front file_dial file_needle_1 file_needle_2 :
      String) (needle_1_type needle_2_type : String)
    (do_drag_1 do_drag_2 : Bool) : Except PyError GaugeState :=
  match get_fileconfig file_front with
  | .error e => .error e
  | .ok angles =>
  match get_fileconfig file_dial with
  | .error e => .error e
  | .ok ranges =>
  if ranges.2 - ranges.1 = 0 then .error .zeroDivisionError else
  let unit : ℚ := unitOf angles ranges
  let glab_1 : Option LabelG :=
    if needle_1_type ≠ "None" then some { text := none } else none
  let glab_2 : Option LabelG :=
    if needle_2_type ≠ "None" then some { text := none } else none
  let step1 : Except PyError (Option (Option NeedleG) × Option (Option NeedleG)) :=
    if needle_1_type ≠ "None" then
      match needleSlot file_fond file_needle_1 do_drag_1 with
      | .error e => .error e
      | .ok n => .ok (some (some n), none)
    else
      .ok (none, some none)
  match step1 with
  | .error e => .error e
  | .ok (needle_1, needle_2) =>
  let step2 : Except PyError (Option (Option NeedleG)) :=
    if needle_2_type ≠ "None" then
      match needleSlot file_fond file_needle_2 do_drag_2 with
      | .error e => .error e
      | .ok n => .ok (some (some n))
    else
      .ok (some none)
  match step2 with
  | .error e => .error e
  | .ok needle_2 =>
  let g : GaugeState :=
    { angles := angles, gauge_min := ranges.1, gauge_max := ranges.2,
      unit := unit, value_1 := 0, value_2 := 0,
      glab_1 := glab_1, glab_2 := glab_2,
      needle_1 := needle_1, needle_2 := needle_2 }
  match g.turn_1 with
  | .error e => .error e
  | .ok g =>
  match g.turn_2 with
  | .error e => .error e
  | .ok g => .ok g

/-! ## Claims about the angle/value mapper -/

/-- Claim C1: the gauge computes its scale as
`unit = (end_angle - start_angle) / (end_value - start_value)` from the
front's angle pair and the dial's value pair, and maps every value to the
rotation angle `angleFor(value) = -start_angle - (value - gauge_min) * unit`;
consequently, for every gauge with a non-degenerate dial range,
`angleFor(gauge_min) = -start_angle` and
`angleFor(gauge_max) = -start_angle - (end_angle - start_angle)` exactly. -/
theorem mapper_C1 (sa ea sv ev : ℤ) (h : ev ≠ sv) :
    unitOf (sa, ea) (sv, ev) = ((ea : ℚ) - (sa : ℚ)) / ((ev : ℚ) - (sv : ℚ))
    ∧ angleForAux sa sv (unitOf (sa, ea) (sv, ev)) ((sv : ℚ)) = -(sa : ℚ)
    ∧ angleForAux sa sv (unitOf (sa, ea) (sv, ev)) ((ev : ℚ)) =
        -(sa : ℚ) - ((ea : ℚ) - (sa : ℚ)) := by
  have hne : (ev : ℚ) - (sv : ℚ) ≠ 0 := by
    rw [sub_ne_zero]
    exact_mod_cast h
  have hu : unitOf (sa, ea) (sv, ev) = ((ea : ℚ) - (sa : ℚ)) / ((ev : ℚ) - (sv : ℚ)) := by
    unfold unitOf
    push_cast
    ring
  refine ⟨hu, ?_, ?_⟩
  · unfold angleForAux
    ring
  · unfold angleForAux
    rw [hu]
    field_simp

/-- Witness for C1 at the specification's own example: front
`bandeauStd_0_180.png`, dial `cadran0180_0_100.png`. -/
theorem mapper_C1_witness :
    (100 : ℤ) ≠ 0
    ∧ (unitOf (0, 180) (0, 100) = ((180 : ℚ) - ((0 : ℤ) : ℚ)) / (((100 : ℤ) : ℚ) - ((0 : ℤ) : ℚ))
       ∧ angleForAux 0 0 (unitOf (0, 180) (0, 100)) (((0 : ℤ) : ℚ)) = -(((0 : ℤ) : ℚ))
       ∧ angleForAux 0 0 (unitOf (0, 180) (0, 100)) (((100 : ℤ) : ℚ)) =
           -(((0 : ℤ) : ℚ)) - (((180 : ℤ) : ℚ) - ((0 : ℤ) : ℚ))) :=
  ⟨by decide, mapper_C1 0 180 0 100 (by decide)⟩

/-- Counterexample to claim C2 as stated: at the spec's own example gauge
(`start_angle = 0`, `end_angle = 180`, `gauge_min = 0`, `gauge_max = 100`,
so `unit = 9/5`) and `value = 50`, the round trip
`valueFromDrag(angleFor(value) + start_angle)` yields `-50`, not `50`. -/
theorem mapper_C2_counterexample :
    ¬ (valueFromDrag (unitOf (0, 180) (0, 100))
        (angleForAux 0 0 (unitOf (0, 180) (0, 100)) 50 + ((0 : ℤ) : ℚ)) = 50) := by
  norm_num [valueFromDrag, angleForAux, unitOf]

/-- Claim C2 as amended: for every gauge with `end_value ≠ start_value` and
`end_angle ≠ start_angle`, and for every value,
`valueFromDrag(angleFor(value) + start_angle) = gauge_min - value` — the
mapper round-trip returns the value reflected about `gauge_min`, not the
value itself. -/
theorem mapper_C2_amended (sa ea sv ev : ℤ) (value : ℚ)
    (h1 : ev ≠ sv) (h2 : ea ≠ sa) :
    valueFromDrag (unitOf (sa, ea) (sv, ev))
      (angleForAux sa sv (unitOf (sa, ea) (sv, ev)) value + (sa : ℚ)) =
    (sv : ℚ) - value := by
  have hv : (ev : ℚ) - (sv : ℚ) ≠ 0 := by
    rw [sub_ne_zero]; exact_mod_cast h1
  have ha : (ea : ℚ) - (sa : ℚ) ≠ 0 := by
    rw [sub_ne_zero]; exact_mod_cast h2
  have hu : unitOf (sa, ea) (sv, ev) ≠ 0 := by
    unfold unitOf
    push_cast
    exact div_ne_zero ha hv
  unfold valueFromDrag angleForAux
  field_simp
  ring

/-- Witness for the amended C2 at the spec's example gauge and `value = 50`. -/
theorem mapper_C2_amended_witness :
    (100 : ℤ) ≠ 0 ∧ (180 : ℤ) ≠ 0
    ∧ valueFromDrag (unitOf (0, 180) (0, 100))
        (angleForAux 0 0 (unitOf (0, 180) (0, 100)) 50 + ((0 : ℤ) : ℚ)) =
      ((0 : ℤ) : ℚ) - 50 :=
  ⟨by decide, by decide, mapper_C2_amended 0 180 0 100 50 (by decide) (by decide)⟩

/-! ## Claims about gauge construction -/

/-- Claim C3 (the code's behaviour at the claim's scenario): constructing a
gauge whose needle slot 1 is disabled (`needle_1_type = "None"`) does NOT
succeed: the disabled branch of the source (line 262) assigns
`self._needle_2 = None` instead of `self._needle_1`, so the construction-time
initial reaction pass `self._turn_1()` (line 287) reads the never-assigned
attribute `self._needle_1` and raises `AttributeError`. -/
theorem gauge_C3_disabled_slot_crash :
    Gauge.init "fond_10_20.png" "bandeauStd_0_180.png" "cadran0180_0_100.png"
      "aiguilleStd_1_1.png" "aiguilleStd_1_1.png" "None" "None" false false =
    .error (.attributeError "_needle_1") := rfl

/-- Claim C9: for every gauge whose dial asset encodes
`end_value = start_value`, construction fails (the float division computing
`unit` on line 216 raises `ZeroDivisionError`, the failure the spec names
`DegenerateRange`), and no gauge is ever constructed with a degenerate value
range. -/
theorem gauge_C9 (file_fond file_front file_dial file_needle_1 file_needle_2
      needle_1_type needle_2_type : String) (do_drag_1 do_drag_2 : Bool)
    (angles ranges : Int × Int)
    (hfront : get_fileconfig file_front = .ok angles)
    (hdial : get_fileconfig file_dial = .ok ranges) :
    (ranges.2 = ranges.1 →
      Gauge.init file_fond file_front file_dial file_needle_1 file_needle_2
        needle_1_type needle_2_type do_drag_1 do_drag_2 =
      .error .zeroDivisionError)
    ∧ ((Gauge.init file_fond file_front file_dial file_needle_1 file_needle_2
          needle_1_type needle_2_type do_drag_1 do_drag_2).isOk = true →
        ranges.2 ≠ ranges.1) := by
  have h1 : ranges.2 = ranges.1 →
      Gauge.init file_fond file_front file_dial file_needle_1 file_needle_2
        needle_1_type needle_2_type do_drag_1 do_drag_2 =
      .error .zeroDivisionError := by
    intro hdeg
    unfold Gauge.init
    simp only [hfront, hdial]
    rw [hdeg, sub_self]
    rw [if_pos rfl]
  refine ⟨h1, ?_⟩
  intro hok hdeg
  rw [h1 hdeg] at hok
  simp [Except.isOk, Except.toBool] at hok

/-- Witness for C9 at a concrete degenerate dial `cadran0180_5_5.png`. -/
theorem gauge_C9_witness :
    get_fileconfig "bandeauStd_0_180.png" = .ok (0, 180)
    ∧ get_fileconfig "cadran0180_5_5.png" = .ok (5, 5)
    ∧ (((5 : ℤ), (5 : ℤ)).2 = ((5 : ℤ), (5 : ℤ)).1 →
        Gauge.init "fond_10_20.png" "bandeauStd_0_180.png" "cadran0180_5_5.png"
          "aiguilleStd_1_1.png" "aiguilleStd_1_1.png" "Std" "None" false false =
        .error .zeroDivisionError)
    ∧ ((Gauge.init "fond_10_20.png" "bandeauStd_0_180.png" "cadran0180_5_5.png"
          "aiguilleStd_1_1.png" "aiguilleStd_1_1.png" "Std" "None" false false).isOk = true →
        (((5 : ℤ), (5 : ℤ)).2 ≠ ((5 : ℤ), (5 : ℤ)).1)) :=
  ⟨rfl, rfl,
    (gauge_C9 "fond_10_20.png" "bandeauStd_0_180.png" "cadran0180_5_5.png"
      "aiguilleStd_1_1.png" "aiguilleStd_1_1.png" "Std" "None" false false
      (0, 180) (5, 5) rfl rfl).1,
    (gauge_C9 "fond_10_20.png" "bandeauStd_0_180.png" "cadran0180_5_5.png"
      "aiguilleStd_1_1.png" "aiguilleStd_1_1.png" "Std" "None" false false
      (0, 180) (5, 5) rfl rfl).2⟩

/-! ## Claims about the asset config decoder -/

/-- `l[i]?` is `some` exactly when `i` is in range. -/
theorem getElem?_isSome_iff {α : Type} (l : List α) (i : ℕ) :
    l[i]?.isSome = true ↔ i < l.length := by
  rw [Option.isSome_iff_ne_none, ne_eq, List.getElem?_eq_none_iff]
  omega

/-- Index 1 of a 3-truncated list with an appended remainder agrees with the
    full list. -/
theorem take3_append_one {α : Type} (ps : List α) (j : α) (h : 2 ≤ ps.length) :
    (ps.take 3 ++ [j])[1]? = ps[1]? := by
  have hl : 1 < (ps.take 3).length := by
    rw [List.length_take]; omega
  rw [List.getElem?_append, if_pos hl, List.getElem?_take,
    if_pos (by omega : (1 : ℕ) < 3)]

/-- Index 2 of a 3-truncated list with an appended remainder agrees with the
    full list. -/
theorem take3_append_two {α : Type} (ps : List α) (j : α) (h : 3 ≤ ps.length) :
    (ps.take 3 ++ [j])[2]? = ps[2]? := by
  have hl : 2 < (ps.take 3).length := by
    rw [List.length_take]; omega
  rw [List.getElem?_append, if_pos hl, List.getElem?_take,
    if_pos (by omega : (2 : ℕ) < 3)]

/-- `split("_", 3)` agrees with the full split at position 1 (the maxsplit can
    only merge tokens from position 3 on). -/
theorem pySplit3_one (cs : List Char) :
    (pySplit3 cs)[1]? = (splitOnChar '_' cs)[1]? := by
  unfold pySplit3
  by_cases h : (splitOnChar '_' cs).length ≤ 4
  · rw [if_pos h]
  · rw [if_neg h]
    exact take3_append_one _ _ (by omega)

/-- `split("_", 3)` agrees with the full split at position 2. -/
theorem pySplit3_two (cs : List Char) :
    (pySplit3 cs)[2]? = (splitOnChar '_' cs)[2]? := by
  unfold pySplit3
  by_cases h : (splitOnChar '_' cs).length ≤ 4
  · rw [if_pos h]
  · rw [if_neg h]
    exact take3_append_two _ _ (by omega)

/-- Claim C6: the decoder splits the extension- and directory-stripped base
name on underscore and returns the integers at positions 1 and 2; it fails
(`MalformedAssetName`, concretely `IndexError`/`ValueError`) exactly when
fewer than 3 underscore-delimited tokens exist or either of those two tokens
is not a valid integer; in particular decoding `fond_abc.png` fails. -/
theorem decoder_C6 (f : String) :
    ((get_fileconfig f).toOption =
      (tokens f)[1]?.bind fun t1 =>
        (tokens f)[2]?.bind fun t2 =>
          (pyInt? t1).bind fun a => (pyInt? t2).map fun b => (a, b))
    ∧ ((get_fileconfig f).isOk = true ↔
        3 ≤ (tokens f).length
          ∧ ((tokens f)[1]?.bind pyInt?).isSome = true
          ∧ ((tokens f)[2]?.bind pyInt?).isSome = true)
    ∧ get_fileconfig "fond_abc.png" = .error .valueError := by
  refine ⟨?_, ?_, rfl⟩
  · simp only [get_fileconfig, tokens, pySplit3_one, pySplit3_two]
    cases h1 : (splitOnChar '_' (splitextRoot (basename f.data)))[1]? with
    | none => simp [Except.toOption]
    | some t1 =>
      cases h2 : (splitOnChar '_' (splitextRoot (basename f.data)))[2]? with
      | none =>
        cases hp1 : pyInt? t1 <;> simp [hp1, Except.toOption]
      | some t2 =>
        cases hp1 : pyInt? t1 <;> cases hp2 : pyInt? t2 <;>
          simp [hp1, hp2, Except.toOption]
  · simp only [get_fileconfig, tokens, pySplit3_one, pySplit3_two]
    cases h1 : (splitOnChar '_' (splitextRoot (basename f.data)))[1]? with
    | none => simp [Except.isOk, Except.toBool]
    | some t1 =>
      cases h2 : (splitOnChar '_' (splitextRoot (basename f.data)))[2]? with
      | none =>
        cases hp1 : pyInt? t1 <;> simp [hp1, Except.isOk, Except.toBool]
      | some t2 =>
        have hlen : 2 < (splitOnChar '_' (splitextRoot (basename f.data))).length := by
          have h := getElem?_isSome_iff (splitOnChar '_' (splitextRoot (basename f.data))) 2
          rw [h2] at h
          simpa using h
        cases hp1 : pyInt? t1 <;> cases hp2 : pyInt? t2 <;>
          simp [hp1, hp2, Except.isOk, Except.toBool] <;> omega

/-- Counterexample to claim C7 as stated: a background name with three numeric
fields after the role prefix (`fond_1_2_3.png`) does NOT cause construction to
fail: the decoder accepts it (returning the first two fields), and a full
gauge construction using it succeeds. -/
theorem decoder_C7_counterexample :
    get_fileconfig "fond_1_2_3.png" = .ok (1, 2)
    ∧ (Gauge.init "fond_1_2_3.png" "bandeauStd_0_180.png" "cadran0180_0_100.png"
        "aiguilleStd_5_5.png" "aiguilleStd_5_5.png" "Std" "None"
        false false).isOk = true :=
  ⟨rfl, rfl⟩

/-- Claim C7 as amended: the decoder (and hence construction, as far as
filename decoding is concerned) fails only when fewer than 3
underscore-delimited tokens exist or tokens 1–2 are non-numeric; a filename
with MORE underscore-delimited fields than expected is accepted, the fields
from position 3 on being coalesced by the maxsplit and never examined. -/
theorem decoder_C7_amended (f : String) (a b : ℤ)
    (h1 : (tokens f)[1]?.bind pyInt? = some a)
    (h2 : (tokens f)[2]?.bind pyInt? = some b) :
    get_fileconfig f = .ok (a, b) := by
  rw [Option.bind_eq_some] at h1 h2
  obtain ⟨t1, ht1, ha⟩ := h1
  obtain ⟨t2, ht2, hb⟩ := h2
  simp only [tokens] at ht1 ht2
  simp only [get_fileconfig, pySplit3_one, pySplit3_two, ht1, ht2, ha, hb]

/-- Witness for the amended C7 at a five-field background name. -/
theorem decoder_C7_witness :
    (tokens "fond_1_2_3_4_5.png")[1]?.bind pyInt? = some 1
    ∧ (tokens "fond_1_2_3_4_5.png")[2]?.bind pyInt? = some 2
    ∧ get_fileconfig "fond_1_2_3_4_5.png" = .ok (1, 2) :=
  ⟨rfl, rfl, decoder_C7_amended "fond_1_2_3_4_5.png" 1 2 rfl rfl⟩

/-! ## Claim about the image metadata reader -/

/-- Folding big-endian digits base 256 stays below `256 ^ length * (acc + 1)`. -/
theorem be32_foldl_lt (bs : List (Fin 256)) :
    ∀ acc : ℕ, bs.foldl (fun a b => 256 * a + b.val) acc < 256 ^ bs.length * (acc + 1) := by
  induction bs with
  | nil =>
    intro acc
    simpa using Nat.lt_succ_self acc
  | cons b bs ih =>
    intro acc
    have h1 := ih (256 * acc + b.val)
    have hb : b.val + 1 ≤ 256 := b.isLt
    have h2 : 256 ^ bs.length * (256 * acc + b.val + 1) ≤
        256 ^ (bs.length + 1) * (acc + 1) := by
      rw [pow_succ]
      have h3 : 256 * acc + b.val + 1 ≤ 256 * (acc + 1) := by omega
      calc 256 ^ bs.length * (256 * acc + b.val + 1)
          ≤ 256 ^ bs.length * (256 * (acc + 1)) := Nat.mul_le_mul_left _ h3
        _ = 256 ^ bs.length * 256 * (acc + 1) := by ring
    simp only [List.foldl_cons, List.length_cons]
    exact lt_of_lt_of_le h1 h2

/-- A big-endian read of at most 4 bytes is a 32-bit unsigned integer. -/
theorem be32_lt (bs : List (Fin 256)) (h : bs.length ≤ 4) : be32 bs < 2 ^ 32 := by
  have h1 := be32_foldl_lt bs 0
  have h2 : 256 ^ bs.length * (0 + 1) ≤ 2 ^ 32 := by
    have h3 : (256 : ℕ) ^ bs.length ≤ 256 ^ 4 := Nat.pow_le_pow_right (by norm_num) h
    simpa using h3.trans (by norm_num)
  exact lt_of_lt_of_le h1 h2

/-- Claim C8: on every file of at least 24 bytes, the image metadata reader
returns (without raising) the pair decoded from bytes 16–23 as two big-endian
32-bit unsigned integers when bytes 0–7 equal the PNG signature and bytes
12–15 equal `IHDR`, and the fixed fallback `(100, 100)` otherwise — in
particular a wrong signature yields `(100, 100)` without raising. -/
theorem png_C8 (data : List (Fin 256)) (hlen : 24 ≤ data.length) :
    get_png_size data =
      .ok (if data.take 8 = pngSig ∧ (data.drop 12).take 4 = ihdrTag then
            (be32 ((data.drop 16).take 4), be32 ((data.drop 20).take 4))
          else (100, 100))
    ∧ be32 ((data.drop 16).take 4) < 2 ^ 32
    ∧ be32 ((data.drop 20).take 4) < 2 ^ 32 := by
  refine ⟨?_, be32_lt _ (List.length_take_le _ _), be32_lt _ (List.length_take_le _ _)⟩
  unfold get_png_size
  by_cases h : data.take 8 = pngSig ∧ (data.drop 12).take 4 = ihdrTag
  · rw [if_pos h, if_pos h]
    have hc : ((data.drop 16).take 8).length = 8 := by
      rw [List.length_take, List.length_drop]
      omega
    rw [if_pos hc]
  · rw [if_neg h, if_neg h]

/-- A concrete 24-byte PNG header: a valid signature, a 13-byte IHDR chunk
    declaring a 200 × 300 image. -/
def pngDemoBytes : List (Fin 256) :=
  [137, 80, 78, 71, 13, 10, 26, 10, 0, 0, 0, 13, 73, 72, 68, 82,
   0, 0, 0, 200, 0, 0, 1, 44]

/-- Witness for C8 at the concrete 24-byte header. -/
theorem png_C8_witness :
    24 ≤ pngDemoBytes.length
    ∧ (get_png_size pngDemoBytes =
        .ok (if pngDemoBytes.take 8 = pngSig ∧ (pngDemoBytes.drop 12).take 4 = ihdrTag then
              (be32 ((pngDemoBytes.drop 16).take 4), be32 ((pngDemoBytes.drop 20).take 4))
            else (100, 100))
       ∧ be32 ((pngDemoBytes.drop 16).take 4) < 2 ^ 32
       ∧ be32 ((pngDemoBytes.drop 20).take 4) < 2 ^ 32) :=
  ⟨by decide, png_C8 pngDemoBytes (by decide)⟩

/-! ## The needle primitive over `ℝ` (class `Needle`, lines 93–159)

The rotation/transform state and the drag-angle computation involve the
toolkit's matrix and trigonometry (`Matrix().rotate(angle, 0, 0, 1)`,
`math.radians`, `math.atan2`); they are modelled over the reals.  The
accumulated scatter transform is modelled by its action on points of the
plane. -/

/-- The pose state of a `Needle`: its pivot `self.anchor`, the `_rotation`
    attribute, and the accumulated scatter transform (as a point map). -/
@[ext]
structure NeedleState where
  anchor : ℝ × ℝ
  rotation : ℝ
  transform : (ℝ × ℝ) → (ℝ × ℝ)

/-- `math.radians`: degrees to radians. -/
noncomputable def radians (degrees : ℝ) : ℝ := degrees * Real.pi / 180

/-- The point action of `apply_transform(Matrix().rotate(θ, 0, 0, 1),
    anchor=a)`: rotate by `θ` radians counterclockwise about the pivot `a`
    (the scatter conjugates the rotation with translations to and from the
    anchor). -/
noncomputable def rotAbout (a : ℝ × ℝ) (θ : ℝ) : (ℝ × ℝ) → (ℝ × ℝ) :=
  fun p =>
    (a.1 + Real.cos θ * (p.1 - a.1) - Real.sin θ * (p.2 - a.2),
     a.2 + Real.sin θ * (p.1 - a.1) + Real.cos θ * (p.2 - a.2))

/-- `Needle._set_rotation(value)` (lines 118–127):

    angle_change = self._rotation - value
    self._rotation = value
    r = Matrix().rotate(-radians(angle_change), 0, 0, 1)
    self.apply_transform(r, post_multiply=True, anchor=self.anchor)

With `post_multiply=True` the new rotation is composed with (not replacing)
the prior transform, acting in the needle's local frame. -/
noncomputable def NeedleState.set_rotation (s : NeedleState) (value : ℝ) :
    NeedleState :=
  let angle_change := s.rotation - value
  { s with rotation := value,
           transform := s.transform ∘ rotAbout s.anchor (-(radians angle_change)) }

/-- The zero pose of a needle anchored at `a`: `self._rotation = 0`
    (line 112) and the identity transform. -/
noncomputable def zeroPose (a : ℝ × ℝ) : NeedleState :=
  { anchor := a, rotation := 0, transform := id }

/-- Rotations about a common pivot compose by adding angles. -/
theorem rotAbout_comp (a : ℝ × ℝ) (x y : ℝ) (p : ℝ × ℝ) :
    rotAbout a x (rotAbout a y p) = rotAbout a (x + y) p := by
  unfold rotAbout
  simp only [Real.cos_add, Real.sin_add]
  apply Prod.ext <;> (simp only []; ring)

/-- Claim C4: needle rotation accumulates correctly — `setRotation` stores the
new absolute angle and composes a rotation of minus the angle change about
the anchor pivot with the prior transform, so that for every pair of angles,
`setRotation(v₁)` then `setRotation(v₂)` from the zero pose produces the same
final pose as a single `setRotation(v₂)` from the zero pose. -/
theorem needle_C4 (a : ℝ × ℝ) (v₁ v₂ : ℝ) :
    ((zeroPose a).set_rotation v₁).set_rotation v₂ =
      (zeroPose a).set_rotation v₂ := by
  have ht : (((zeroPose a).set_rotation v₁).set_rotation v₂).transform =
      ((zeroPose a).set_rotation v₂).transform := by
    funext p
    show ((id ∘ rotAbout a (-(radians (0 - v₁)))) ∘
        rotAbout a (-(radians (v₁ - v₂)))) p =
      (id ∘ rotAbout a (-(radians (0 - v₂)))) p
    simp only [Function.comp_apply, id_eq]
    rw [rotAbout_comp]
    have harg : -(radians (0 - v₁)) + -(radians (v₁ - v₂)) = -(radians (0 - v₂)) := by
      unfold radians
      ring
    rw [harg]
  exact NeedleState.ext rfl rfl ht

/-- `math.atan2(y, x)`: the angle of the vector `(x, y)`, in `(-π, π]`,
    with the C-library convention at the axes. -/
noncomputable def atan2 (y x : ℝ) : ℝ :=
  if 0 < x then Real.arctan (y / x)
  else if x < 0 ∧ 0 ≤ y then Real.arctan (y / x) + Real.pi
  else if x < 0 ∧ y < 0 then Real.arctan (y / x) - Real.pi
  else if x = 0 ∧ 0 < y then Real.pi / 2
  else if x = 0 ∧ y < 0 then -(Real.pi / 2)
  else 0

/-- `kivy.vector.Vector.angle`: the signed angle between two vectors in
    degrees, `-(180 / pi) * atan2(v × w, v · w)`. -/
noncomputable def vectorAngle (v w : ℝ × ℝ) : ℝ :=
  -(180 / Real.pi) * atan2 (v.1 * w.2 - v.2 * w.1) (v.1 * w.1 + v.2 * w.2)

/-- `Needle.on_touch_move` (lines 147–159), the published `dragged` value as
a function of the locally-converted pointer position `t = self.to_local(*touch.pos)`
(the local conversion is the toolkit's inverse transform and ranges over the
whole plane):

    rx, ry = t[0] - self.anchor[0], t[1] - self.anchor[1]
    angle = Vector(rx, ry).angle((0, 1))
    if angle > 90:
        angle = 90
    if angle < -90:
        angle = -90
    self.dragged = -angle
-/
noncomputable def on_touch_move_dragged (s : NeedleState) (t : ℝ × ℝ) : ℝ :=
  let rx := t.1 - s.anchor.1
  let ry := t.2 - s.anchor.2
  let angle := vectorAngle (rx, ry) (0, 1)
  let angle := if 90 < angle then (90 : ℝ) else angle
  let angle := if angle < -90 then (-90 : ℝ) else angle;
  -angle

/-- The published drag angle always lies in `[-90, 90]`. -/
theorem dragged_mem (s : NeedleState) (t : ℝ × ℝ) :
    -90 ≤ on_touch_move_dragged s t ∧ on_touch_move_dragged s t ≤ 90 := by
  simp only [on_touch_move_dragged]
  split_ifs with h1 h2 h3 <;> constructor <;> linarith

/-- Claim C5: on every pointer move while dragging, whatever the pointer
position, the needle computes the angle of the anchor-to-pointer vector
relative to the up direction `(0, 1)`, clamps it to `[-90, 90]`, and publishes
its negation; hence the published `dragged` value always lies in `[-90, 90]`. -/
theorem needle_C5 (s : NeedleState) (t : ℝ × ℝ) :
    on_touch_move_dragged s t =
      -(max (-90) (min 90 (vectorAngle (t.1 - s.anchor.1, t.2 - s.anchor.2) (0, 1))))
    ∧ -90 ≤ on_touch_move_dragged s t ∧ on_touch_move_dragged s t ≤ 90 := by
  refine ⟨?_, dragged_mem s t⟩
  simp only [on_touch_move_dragged]
  split_ifs with h1 h2 h3
  · linarith
  · rw [min_eq_left h1.le, max_eq_right (by norm_num : (-90 : ℝ) ≤ 90)]
  · rw [min_eq_right (le_of_not_lt h1), max_eq_left (le_of_lt h3)]
  · rw [min_eq_right (le_of_not_lt h1), max_eq_right (le_of_not_lt h3)]

/-- `Gauge._dragged_1`/`_dragged_2` (lines 310–320): the gauge's published
    drag output, `self._needle_i.dragged / self.unit`. -/
noncomputable def dragOutput (unit dragged : ℝ) : ℝ := dragged / unit

/-- At the spec's example gauge (`unit = 9/5`, value range `[0, 100]`),
    pointing straight left of the anchor drags the needle to `-90` degrees. -/
theorem drag_example :
    on_touch_move_dragged (zeroPose (0, 0)) (-1, 0) = -90 := by
  have hθ : vectorAngle ((-1 : ℝ) - 0, (0 : ℝ) - 0) (0, 1) = 90 := by
    simp only [vectorAngle, atan2]
    norm_num
    field_simp
    ring
  simp only [on_touch_move_dragged, zeroPose]
  rw [hθ]
  norm_num

/-- Claim C10 (implicit): for either needle slot, the gauge's drag output is
the needle's clamped dragged angle divided by `unit`, with no offset by
`gauge_min` or `start_angle` and no clamping to the gauge's value range;
hence it lies between `-90/unit` and `90/unit` (endpoints swapped when `unit`
is negative), and it can fall outside the gauge's own value range (at the
spec's example gauge `unit = 9/5` with range `[0, 100]`, a leftward drag
yields `-50`). -/
theorem gauge_C10 (unit : ℝ) (s : NeedleState) (t : ℝ × ℝ) (hu : unit ≠ 0) :
    dragOutput unit (on_touch_move_dragged s t) = on_touch_move_dragged s t / unit
    ∧ min (-90 / unit) (90 / unit) ≤ dragOutput unit (on_touch_move_dragged s t)
    ∧ dragOutput unit (on_touch_move_dragged s t) ≤ max (-90 / unit) (90 / unit)
    ∧ dragOutput (((unitOf (0, 180) (0, 100) : ℚ) : ℝ))
        (on_touch_move_dragged (zeroPose (0, 0)) (-1, 0)) < 0 := by
  obtain ⟨hlo, hhi⟩ := dragged_mem s t
  have hout : dragOutput (((unitOf (0, 180) (0, 100) : ℚ) : ℝ))
      (on_touch_move_dragged (zeroPose (0, 0)) (-1, 0)) < 0 := by
    have huq : (unitOf (0, 180) (0, 100) : ℚ) = 9 / 5 := by
      norm_num [unitOf]
    rw [drag_example, dragOutput, huq]
    norm_num
  rcases hu.lt_or_lt with hneg | hpos
  · have hinv : unit⁻¹ < 0 := inv_lt_zero.mpr hneg
    have hle : (90 : ℝ) / unit ≤ -90 / unit := by
      rw [div_eq_mul_inv, div_eq_mul_inv]
      exact mul_le_mul_of_nonpos_right (by norm_num) hinv.le
    refine ⟨rfl, ?_, ?_, hout⟩
    · rw [min_eq_right hle, dragOutput, div_eq_mul_inv, div_eq_mul_inv]
      exact mul_le_mul_of_nonpos_right hhi hinv.le
    · rw [max_eq_left hle, dragOutput, div_eq_mul_inv, div_eq_mul_inv]
      exact mul_le_mul_of_nonpos_right hlo hinv.le
  · have hinv : 0 < unit⁻¹ := inv_pos.mpr hpos
    have hle : (-90 : ℝ) / unit ≤ 90 / unit := by
      rw [div_eq_mul_inv, div_eq_mul_inv]
      exact mul_le_mul_of_nonneg_right (by norm_num) hinv.le
    refine ⟨rfl, ?_, ?_, hout⟩
    · rw [min_eq_left hle, dragOutput, div_eq_mul_inv, div_eq_mul_inv]
      exact mul_le_mul_of_nonneg_right hlo hinv.le
    · rw [max_eq_right hle, dragOutput, div_eq_mul_inv, div_eq_mul_inv]
      exact mul_le_mul_of_nonneg_right hhi hinv.le

/-- Witness for C10 at `unit = 1` and a pointer straight above the anchor. -/
theorem gauge_C10_witness :
    (1 : ℝ) ≠ 0
    ∧ (dragOutput 1 (on_touch_move_dragged (zeroPose (0, 0)) (0, 1)) =
         on_touch_move_dragged (zeroPose (0, 0)) (0, 1) / 1
       ∧ min (-90 / 1) (90 / 1) ≤
           dragOutput 1 (on_touch_move_dragged (zeroPose (0, 0)) (0, 1))
       ∧ dragOutput 1 (on_touch_move_dragged (zeroPose (0, 0)) (0, 1)) ≤
           max (-90 / 1) (90 / 1)
       ∧ dragOutput (((unitOf (0, 180) (0, 100) : ℚ) : ℝ))
           (on_touch_move_dragged (zeroPose (0, 0)) (-1, 0)) < 0) :=
  ⟨one_ne_zero, gauge_C10 1 (zeroPose (0, 0)) (0, 1) one_ne_zero⟩

/-- Witness for C6 at the concrete background name `fond_10_20.png`. -/
theorem decoder_C6_witness :
    ((get_fileconfig "fond_10_20.png").toOption =
      (tokens "fond_10_20.png")[1]?.bind fun t1 =>
        (tokens "fond_10_20.png")[2]?.bind fun t2 =>
          (pyInt? t1).bind fun a => (pyInt? t2).map fun b => (a, b))
    ∧ ((get_fileconfig "fond_10_20.png").isOk = true ↔
        3 ≤ (tokens "fond_10_20.png").length
          ∧ ((tokens "fond_10_20.png")[1]?.bind pyInt?).isSome = true
          ∧ ((tokens "fond_10_20.png")[2]?.bind pyInt?).isSome = true)
    ∧ get_fileconfig "fond_abc.png" = .error .valueError :=
  decoder_C6 "fond_10_20.png"

/-- Witness for C4 at the claim's own pair of angles, 30 then 45. -/
theorem needle_C4_witness :
    ((zeroPose ((0 : ℝ), (0 : ℝ))).set_rotation 30).set_rotation 45 =
      (zeroPose ((0 : ℝ), (0 : ℝ))).set_rotation 45 :=
  needle_C4 ((0 : ℝ), (0 : ℝ)) 30 45

/-- Witness for C5 at a pointer straight above the anchor. -/
theorem needle_C5_witness :
    on_touch_move_dragged (zeroPose ((0 : ℝ), (0 : ℝ))) ((0 : ℝ), (1 : ℝ)) =
      -(max (-90) (min 90 (vectorAngle
        (((0 : ℝ), (1 : ℝ)).1 - (zeroPose ((0 : ℝ), (0 : ℝ))).anchor.1,
         ((0 : ℝ), (1 : ℝ)).2 - (zeroPose ((0 : ℝ), (0 : ℝ))).anchor.2) (0, 1))))
    ∧ -90 ≤ on_touch_move_dragged (zeroPose ((0 : ℝ), (0 : ℝ))) ((0 : ℝ), (1 : ℝ))
    ∧ on_touch_move_dragged (zeroPose ((0 : ℝ), (0 : ℝ))) ((0 : ℝ), (1 : ℝ)) ≤ 90 :=
  needle_C5 (zeroPose ((0 : ℝ), (0 : ℝ))) ((0 : ℝ), (1 : ℝ))
